import Mathlib

/-!
Shallow embedding of the Action-Recognition-and-Captioning front-end.

The repository holds two parallel implementations of the same screen:
a styled variant (`src/frontend/src/pages/Index.tsx`, component `Index`)
and a plain variant (`src/unnamed/part_000`, component `App`).  Both keep
the same React state (selectedFile, previewUrl, isLoading, error, results,
apiHealth; the styled variant additionally isDragging) and the same
handlers (checkHealth, handleImageSelect, processFile, handleDrop — styled
only —, loadSampleImage, analyzeImage, resetAnalysis).

JSON response bodies are untyped in the source (`results: any`), so they
are embedded as a `Json` inductive; JSON numbers are embedded as exact
rationals (a JSON literal denotes the IEEE-754 binary64 double nearest to
it, which is itself a rational, so every value that can actually flow
through `response.json()` is represented exactly).  Network effects are
embedded by passing the outcome of the `fetch` as an explicit argument
(`FetchOutcome`): a transport-level failure (network error or a body that
is not JSON, both of which land in the same `catch`) or a parsed body.
Handlers become pure functions from state (plus inputs) to state; the
styled variant's toast notifications are returned as an explicit list of
emitted toast messages, and `analyzeImage` additionally reports the
endpoint it POSTed to (`none` = no network call was issued).
-/

/-- A parsed JSON value, as produced by `response.json()`.  Numbers are
exact rationals (see the file header). -/
inductive Json where
  | null : Json
  | bool : Bool → Json
  | num : ℚ → Json
  | str : String → Json
  | arr : List Json → Json
  | obj : List (String × Json) → Json

/-- JavaScript property access `v.k` for a parsed JSON value `v`, as used on
the response bodies (`data.success`, `data.error`, `data.status`, …).
Returns `none` for `undefined` (missing key, or access on a non-object
primitive / array, which yields `undefined` in JavaScript).  Access on
`null` throws a TypeError instead; that case is singled out by
`propAccessThrows` and handled where the source has a `catch`. -/
def getField (k : String) : Json → Option Json
  | Json.obj fields => (fields.find? (fun p => p.1 == k)).map Prod.snd
  | _ => none

/-- Property access `v.k` throws a TypeError exactly when `v` is `null`
(`undefined` cannot be produced by `response.json()`). -/
def propAccessThrows : Json → Bool
  | Json.null => true
  | _ => false

/-- JavaScript truthiness of a JSON value: `null`, `false`, `0` and `""`
are falsy; every other JSON value (including `{}` and `[]`) is truthy. -/
def truthyJ : Json → Bool
  | Json.null => false
  | Json.bool b => b
  | Json.num q => !(q == 0)
  | Json.str s => !(s == "")
  | Json.arr _ => true
  | Json.obj _ => true

/-- Truthiness of a possibly-`undefined` value (`undefined` is falsy). -/
def truthy : Option Json → Bool
  | none => false
  | some v => truthyJ v

/-- JavaScript `a || b` on a possibly-`undefined` `a`: yields `a` when `a`
is truthy, otherwise `b` (as in `data.error || 'Analysis failed'`). -/
def jsOr (a : Option Json) (b : Json) : Json :=
  match a with
  | some v => if truthyJ v then v else b
  | none => b

/-- JavaScript `s.startsWith(pre)`: whether `pre` is a prefix of `s`
(character-wise, as in the source's `file.type.startsWith('image/')`). -/
def jsStartsWith (s pre : String) : Bool :=
  pre.data.isPrefixOf s.data

/-- A browser `File` (or the file-like object built from the sample blob):
its name, its media type (`file.type`) and its bytes. -/
structure JsFile where
  name : String
  type : String
  content : List Nat

/-- The React state of the screen, shared by both variants (`isDragging`
exists only in the styled variant and is never touched by the plain one;
`fileInputValue` is the hidden file input's DOM `value`, which
`resetAnalysis` clears through `fileInputRef`). -/
structure AppState where
  selectedFile : Option JsFile
  previewUrl : Option String
  isLoading : Bool
  error : Option Json
  results : Option Json
  apiHealth : Bool
  isDragging : Bool
  fileInputValue : String

/-- The initial state of a freshly mounted component (all `useState`
initialisers). -/
def initState : AppState :=
  { selectedFile := none, previewUrl := none, isLoading := false,
    error := none, results := none, apiHealth := false,
    isDragging := false, fileInputValue := "" }

/-- Outcome of one `fetch`: either a transport-level failure (network
error, or a body `response.json()` could not parse — both reach the same
`catch`) or a parsed JSON body. -/
inductive FetchOutcome where
  | transportFail : FetchOutcome
  | body : Json → FetchOutcome

/-- The three analysis modes of `analyzeImage`. -/
inductive Mode where
  | caption : Mode
  | action : Mode
  | combined : Mode

/-- The endpoint path chosen by `analyzeImage`'s `switch` on the mode. -/
def endpointFor : Mode → String
  | Mode.caption => "/api/caption"
  | Mode.action => "/api/action"
  | Mode.combined => "/api/combined"

/-- `URL.createObjectURL(file)`: derives a locally-viewable URL from the
file.  The browser returns a fresh opaque `blob:` URL; the embedding
models it as a deterministic function of the file. -/
def createObjectURL (f : JsFile) : String :=
  "blob:" ++ f.name

/-- The health test `data.status === 'healthy'`: strict equality holds
exactly when the `status` field is the string `healthy`. -/
def statusHealthy (b : Json) : Bool :=
  match getField "status" b with
  | some (Json.str v) => v == "healthy"
  | _ => false

/-- `checkHealth` (identical logic in both variants): awaits the JSON body
of `GET {base}/health`; if `data.status === 'healthy'` sets `apiHealth`
to `true`; the `catch` (network error, non-JSON body, or the TypeError
from reading `.status` on a `null` body) sets it to `false`; any other
parsed body leaves `apiHealth` untouched. -/
def checkHealth (s : AppState) : FetchOutcome → AppState
  | FetchOutcome.transportFail => { s with apiHealth := false }
  | FetchOutcome.body b =>
      if propAccessThrows b then { s with apiHealth := false }
      else if statusHealthy b then { s with apiHealth := true }
      else s

/-- `processFile` (identical in both variants): adopt a file — store it as
selectedFile, clear error, clear previous results, derive a preview URL. -/
def processFile (s : AppState) (file : JsFile) : AppState :=
  { s with selectedFile := some file, error := none, results := none,
           previewUrl := some (createObjectURL file) }

/-- `handleImageSelect` of the styled variant: takes
`event.target.files`; does nothing when there is no file; sets the error
message and toasts `Invalid file type` when the media type does not start
with `image/`; otherwise adopts the file via `processFile`.  Returns the
new state and the emitted toasts. -/
def handleImageSelect (s : AppState) (files : List JsFile) : AppState × List String :=
  match files.head? with
  | none => (s, [])
  | some file =>
      if !(jsStartsWith file.type "image/") then
        ({ s with error := some (Json.str "Please select a valid image file") },
         ["Invalid file type"])
      else
        (processFile s file, [])

/-- `handleImageSelect` of the plain variant (`App`): same logic, no
toast. -/
def handleImageSelectApp (s : AppState) (files : List JsFile) : AppState :=
  match files.head? with
  | none => s
  | some file =>
      if !(jsStartsWith file.type "image/") then
        { s with error := some (Json.str "Please select a valid image file") }
      else
        processFile s file

/-- `handleDrop` (styled variant only): always clears the dragging flag;
adopts `e.dataTransfer.files[0]` when it exists and its media type starts
with `image/`; otherwise only toasts `Please drop a valid image file`
(no state field besides `isDragging` is changed — in particular no error
is set). -/
def handleDrop (s : AppState) (dataTransferFiles : List JsFile) : AppState × List String :=
  let s1 := { s with isDragging := false }
  match dataTransferFiles.head? with
  | some file =>
      if jsStartsWith file.type "image/" then (processFile s1 file, [])
      else (s1, ["Please drop a valid image file"])
  | none => (s1, ["Please drop a valid image file"])

/-- The file-like object `loadSampleImage` builds from the downloaded
blob: `new File([blob], 'sample.jpg', { type: 'image/jpeg' })`. -/
def sampleFile (blobBytes : List Nat) : JsFile :=
  { name := "sample.jpg", type := "image/jpeg", content := blobBytes }

/-- `loadSampleImage` (styled variant): sets loading, fetches the fixed
sample URL; on success wraps the blob as a file and adopts it via
`processFile`; on failure sets a generic error and toasts; `finally`
clears loading.  The fetch outcome is the `Option` argument (`none` =
fetch/blob failure). -/
def loadSampleImage (s : AppState) (blob : Option (List Nat)) : AppState × List String :=
  match blob with
  | some bytes =>
      ({ processFile { s with isLoading := true } (sampleFile bytes) with isLoading := false }, [])
  | none =>
      ({ s with isLoading := false, error := some (Json.str "Failed to load sample image") },
       ["Failed to load sample"])

/-- Result of one `analyzeImage` call: the final state, the toasts the
styled variant emitted, and the endpoint POSTed to (`none` when no
network call was issued). -/
structure DispatchResult where
  state : AppState
  toasts : List String
  request : Option String

/-- `analyzeImage` of the styled variant: with no selected file it only
sets the error `Please select an image first` (no network call).
Otherwise it sets loading, clears the error, POSTs the file to the mode's
endpoint and awaits JSON: on a truthy `data.success` it stores the whole
body as results; otherwise it sets `data.error || 'Analysis failed'` as
the error; the `catch` (transport failure, non-JSON body, or the
TypeError from reading `.success` on a `null` body) sets the generic
`Failed to analyze image`; `finally` clears loading.  Note that no branch
clears previously stored results. -/
def analyzeImage (s : AppState) (mode : Mode) (out : FetchOutcome) : DispatchResult :=
  match s.selectedFile with
  | none =>
      { state := { s with error := some (Json.str "Please select an image first") },
        toasts := [], request := none }
  | some _ =>
      let s1 := { s with isLoading := true, error := none }
      match out with
      | FetchOutcome.transportFail =>
          { state := { s1 with error := some (Json.str "Failed to analyze image"),
                               isLoading := false },
            toasts := ["Connection error"], request := some (endpointFor mode) }
      | FetchOutcome.body b =>
          if propAccessThrows b then
            { state := { s1 with error := some (Json.str "Failed to analyze image"),
                                 isLoading := false },
              toasts := ["Connection error"], request := some (endpointFor mode) }
          else if truthy (getField "success" b) then
            { state := { s1 with results := some b, isLoading := false },
              toasts := ["Analysis complete!"], request := some (endpointFor mode) }
          else
            { state := { s1 with error := some (jsOr (getField "error" b)
                                                     (Json.str "Analysis failed")),
                                 isLoading := false },
              toasts := ["Analysis failed"], request := some (endpointFor mode) }

/-- `analyzeImage` of the plain variant (`App`): same decision rule, no
toasts, and the generic transport-failure message reads
`Failed to analyze image. Ensure Flask server is running.`.  Returns the
final state and the endpoint POSTed to (`none` = no network call). -/
def analyzeImageApp (s : AppState) (mode : Mode) (out : FetchOutcome) : AppState × Option String :=
  match s.selectedFile with
  | none => ({ s with error := some (Json.str "Please select an image first") }, none)
  | some _ =>
      let s1 := { s with isLoading := true, error := none }
      match out with
      | FetchOutcome.transportFail =>
          ({ s1 with error := some (Json.str "Failed to analyze image. Ensure Flask server is running."),
                     isLoading := false }, some (endpointFor mode))
      | FetchOutcome.body b =>
          if propAccessThrows b then
            ({ s1 with error := some (Json.str "Failed to analyze image. Ensure Flask server is running."),
                       isLoading := false }, some (endpointFor mode))
          else if truthy (getField "success" b) then
            ({ s1 with results := some b, isLoading := false }, some (endpointFor mode))
          else
            ({ s1 with error := some (jsOr (getField "error" b) (Json.str "Analysis failed")),
                       isLoading := false }, some (endpointFor mode))

/-- `resetAnalysis` (identical in both variants): clears selectedFile,
previewUrl, results and error, and clears the hidden file input's DOM
value through `fileInputRef`. -/
def resetAnalysis (s : AppState) : AppState :=
  { s with selectedFile := none, previewUrl := none, results := none,
           error := none, fileInputValue := "" }

/-- Pads a digit string with leading zeros to length `f` (helper for the
fraction part of `toFixed`). -/
def padZeros (s : String) (f : Nat) : String :=
  String.mk (List.replicate (f - s.length) '0') ++ s

/-- `Number.prototype.toFixed(f)` per ECMA-262 for the values that occur
here: for a non-negative `x`, picks the integer `n` for which `n / 10^f`
is closest to the exact value of the double `x`, ties toward the larger
`n` (hence `n = ⌊x·10^f + 1/2⌋`), and prints it with `f` digits after the
point; a negative `x` is printed as the sign followed by `toFixed` of its
absolute value.  The floor is computed on the reduced fraction
`|x| = x.num.natAbs / x.den`, so
`⌊|x|·10^f + 1/2⌋ = (2·|num|·10^f + den) / (2·den)` in `Nat` division. -/
def toFixed (f : Nat) (x : ℚ) : String :=
  let sign := if x.num < 0 then "-" else ""
  let n : Nat := (2 * x.num.natAbs * 10 ^ f + x.den) / (2 * x.den)
  if f == 0 then sign ++ toString n
  else sign ++ toString (n / 10 ^ f) ++ "." ++ padZeros (toString (n % 10 ^ f)) f

/-- The action facet both result renderers read the confidence from:
`results.action ? results.action.confidence : results.confidence`
(`undefined` when the chosen source lacks the key). -/
def confSource (b : Json) : Option Json :=
  if truthy (getField "action" b) then (getField "action" b).bind (getField "confidence")
  else getField "confidence" b

/-- The list both result renderers read the ranked predictions from:
`results.action ? results.action.all_predictions : results.all_predictions`. -/
def predsSource (b : Json) : Option Json :=
  if truthy (getField "action" b) then (getField "action" b).bind (getField "all_predictions")
  else getField "all_predictions" b

/-- Whether the action result card is rendered at all:
`results.action || results.predicted_action`. -/
def actionSectionShown (b : Json) : Bool :=
  truthy (getField "action" b) || truthy (getField "predicted_action" b)

/-- The confidence text of the styled variant:
`(results.action ? results.action.confidence : results.confidence).toFixed(1)`
followed by `%`.  `none` models the thrown TypeError when the read value
is `undefined` or not a number (only numbers have `.toFixed`). -/
def renderConfidenceStyled (b : Json) : Option String :=
  match confSource b with
  | some (Json.num q) => some (toFixed 1 q ++ "%")
  | _ => none

/-- The confidence text of the plain variant, identical except for
`.toFixed(2)`. -/
def renderConfidencePlain (b : Json) : Option String :=
  match confSource b with
  | some (Json.num q) => some (toFixed 2 q ++ "%")
  | _ => none

/-- The prediction entries the styled variant displays, in display order:
`(...all_predictions).slice(0, 5).map(...)` — the first five elements of
the server's list, in the server's order (no sort).  `none` models the
thrown TypeError when the read value is not an array (`.slice`/`.map`
missing). -/
def renderPredictionsStyled (b : Json) : Option (List Json) :=
  match predsSource b with
  | some (Json.arr xs) => some (xs.take 5)
  | _ => none

/-- The prediction entries the plain variant displays, in display order:
`(...all_predictions).map(...)` — all elements, in the server's order. -/
def renderPredictionsPlain (b : Json) : Option (List Json) :=
  match predsSource b with
  | some (Json.arr xs) => some xs
  | _ => none

/-- The IEEE-754 binary64 double nearest to the JSON literal `87.345`
(what `response.json()` actually yields for it):
`3073178980099031 / 2^45 = 87.3449999999999988631…`, strictly below
`87.345` (the fraction is already in lowest terms: the numerator is odd). -/
def conf87345 : ℚ :=
  Rat.mk' 3073178980099031 35184372088832 (by norm_num) (by norm_num)

/-- A dispatched analysis attempt that fails: a transport-level failure,
a `null` body (whose `success` read throws into the same `catch`), or a
parsed body whose `success` field is falsy. -/
def dispatchFailed : FetchOutcome → Bool
  | FetchOutcome.transportFail => true
  | FetchOutcome.body b => propAccessThrows b || !truthy (getField "success" b)

/-- What adopting a valid image file `f` must do to the state, per the
spec: store it as SelectedFile, clear error, clear prior AnalysisResult,
derive a new PreviewHandle from it. -/
def adopted (s : AppState) (f : JsFile) : Prop :=
  s.selectedFile = some f ∧ s.error = none ∧ s.results = none
  ∧ s.previewUrl = some (createObjectURL f)

/-- A valid image file, used as a concrete selected file. -/
def pngFile : JsFile :=
  { name := "a.png", type := "image/png", content := [1, 2, 3] }

/-- A non-image file, used to exercise the rejection paths. -/
def textFile : JsFile :=
  { name := "notes.txt", type := "text/plain", content := [4, 5] }

/-- A ready-to-analyze state: a file has been adopted, nothing else has
happened. -/
def fileState : AppState := processFile initState pngFile

/-- A server-failure body whose `error` field is present but falsy (the
empty string). -/
def c1body : Json :=
  Json.obj [("success", Json.bool false), ("error", Json.str "")]

/-- A successful response body. -/
def okBody : Json :=
  Json.obj [("success", Json.bool true), ("caption", Json.str "a dog runs")]

/-- An AnalysisResult stored by an earlier successful analysis. -/
def c2oldResult : Json :=
  Json.obj [("success", Json.bool true), ("caption", Json.str "old caption")]

/-- A state holding both a selected file and a previously stored
AnalysisResult (reached by analyzing once successfully). -/
def c2state : AppState := { fileState with results := some c2oldResult }

/-- A state in the middle of a drag gesture (the drag-over handler has
set `isDragging`). -/
def c3state : AppState := { initState with isDragging := true }

/-- A combined-mode response body whose nested `action.confidence` is the
JSON literal `87.345` (i.e. the double `conf87345`). -/
def c6body : Json :=
  Json.obj [("success", Json.bool true),
            ("caption", Json.str "a person runs"),
            ("action", Json.obj [("predicted_action", Json.str "running"),
                                 ("confidence", Json.num conf87345),
                                 ("all_predictions", Json.arr [])])]

/-- A ranked prediction entry `{class, probability}`. -/
def predEntry (c : String) (p : ℚ) : Json :=
  Json.obj [("class", Json.str c), ("probability", Json.num p)]

/-- A server-ordered list of seven prediction entries (deliberately not
sorted by probability, to exercise order preservation). -/
def preds7 : List Json :=
  [predEntry "p1" 1, predEntry "p2" 30, predEntry "p3" 2, predEntry "p4" 25,
   predEntry "p5" 5, predEntry "p6" 20, predEntry "p7" 17]

/-- An action-mode response body carrying `preds7` in flattened shape. -/
def c9body : Json :=
  Json.obj [("success", Json.bool true),
            ("predicted_action", Json.str "p2"),
            ("confidence", Json.num 30),
            ("all_predictions", Json.arr preds7)]

/-- A successful response with `predicted_action` but with `confidence`
and `all_predictions` missing. -/
def c10body : Json :=
  Json.obj [("success", Json.bool true), ("predicted_action", Json.str "running")]

/-- C4: for every valid image file adopted (picked, dropped, or
sample-loaded), the operation stores it as SelectedFile, clears any
previously set error, clears any prior AnalysisResult, and derives a new
PreviewHandle from the file (all entry points funnel into `processFile`,
which performs exactly these four updates). -/
theorem c4_adopt_clears_state (s : AppState) (f : JsFile) (bytes : List Nat)
    (h : jsStartsWith f.type "image/" = true) :
    adopted (processFile s f) f
    ∧ adopted (handleImageSelect s [f]).1 f
    ∧ adopted (handleImageSelectApp s [f]) f
    ∧ adopted (handleDrop s [f]).1 f
    ∧ adopted (loadSampleImage s (some bytes)).1 (sampleFile bytes) := by
  simp [adopted, processFile, handleImageSelect, handleImageSelectApp, handleDrop,
        loadSampleImage, h]

/-- C4 witness: a concrete PNG file adopted from the initial state through
the pick and the generic adopt paths. -/
theorem c4_adopt_clears_state_witness :
    jsStartsWith pngFile.type "image/" = true
    ∧ adopted (processFile initState pngFile) pngFile
    ∧ adopted (handleImageSelect initState [pngFile]).1 pngFile :=
  ⟨by decide, (c4_adopt_clears_state initState pngFile [9] (by decide)).1,
   (c4_adopt_clears_state initState pngFile [9] (by decide)).2.1⟩

/-- C5: from every state, `resetAnalysis` returns the fields enumerated by
the claim to their initial values — no SelectedFile, no PreviewHandle, no
AnalysisResult, no error — and clears the file input's underlying DOM
value. -/
theorem c5_reset_clears_state (s : AppState) :
    (resetAnalysis s).selectedFile = none ∧ (resetAnalysis s).previewUrl = none
    ∧ (resetAnalysis s).results = none ∧ (resetAnalysis s).error = none
    ∧ (resetAnalysis s).fileInputValue = "" :=
  ⟨rfl, rfl, rfl, rfl, rfl⟩

/-- C7: dispatching analysis with no SelectedFile issues no network call
(`request = none`), emits no toast, and only sets the error message — the
record-update equality shows every other state field unchanged, in both
variants. -/
theorem c7_no_file_no_request (s : AppState) (mode : Mode) (out : FetchOutcome)
    (h : s.selectedFile = none) :
    analyzeImage s mode out
      = { state := { s with error := some (Json.str "Please select an image first") },
          toasts := [], request := none }
    ∧ analyzeImageApp s mode out
      = ({ s with error := some (Json.str "Please select an image first") }, none) := by
  simp [analyzeImage, analyzeImageApp, h]

/-- C7 witness: dispatching from the freshly mounted state (no file) with
any fetch outcome. -/
theorem c7_no_file_no_request_witness :
    analyzeImage initState Mode.action FetchOutcome.transportFail
      = { state := { initState with error := some (Json.str "Please select an image first") },
          toasts := [], request := none }
    ∧ analyzeImageApp initState Mode.action FetchOutcome.transportFail
      = ({ initState with error := some (Json.str "Please select an image first") }, none) :=
  c7_no_file_no_request initState Mode.action FetchOutcome.transportFail rfl

/-- C9: for every stored AnalysisResult whose prediction source resolves
to a list `xs`, the styled variant displays exactly `xs.take 5` — the
first five elements in the server's order, all of them when the list is
five or shorter — and the plain variant displays exactly `xs`; no sort is
applied anywhere. -/
theorem c9_predictions_display (b : Json) (xs : List Json)
    (h : predsSource b = some (Json.arr xs)) :
    renderPredictionsStyled b = some (xs.take 5)
    ∧ renderPredictionsPlain b = some xs
    ∧ (xs.length ≤ 5 → renderPredictionsStyled b = some xs) := by
  refine ⟨by simp [renderPredictionsStyled, h], by simp [renderPredictionsPlain, h],
          fun hl => ?_⟩
  simp [renderPredictionsStyled, h, List.take_of_length_le hl]

/-- C9 witness: a flattened action response carrying seven unsorted
predictions — the styled variant shows the first five in server order,
the plain variant all seven. -/
theorem c9_predictions_display_witness :
    renderPredictionsStyled c9body = some (preds7.take 5)
    ∧ renderPredictionsPlain c9body = some preds7 :=
  ⟨(c9_predictions_display c9body preds7 rfl).1,
   (c9_predictions_display c9body preds7 rfl).2.1⟩

/-- C10: a response with `success: true` and a `predicted_action` but
missing `confidence` and `all_predictions` makes the action card render
(`actionSectionShown`), yet both variants' confidence and prediction
renderers hit an absent value (`.toFixed`, `.slice` or `.map` on
`undefined`), modelled by `none` — the thrown TypeError — instead of
degrading gracefully. -/
theorem c10_missing_fields_crash :
    truthy (getField "success" c10body) = true
    ∧ getField "predicted_action" c10body = some (Json.str "running")
    ∧ actionSectionShown c10body = true
    ∧ confSource c10body = none
    ∧ predsSource c10body = none
    ∧ renderConfidenceStyled c10body = none
    ∧ renderConfidencePlain c10body = none
    ∧ renderPredictionsStyled c10body = none
    ∧ renderPredictionsPlain c10body = none :=
  ⟨rfl, rfl, rfl, rfl, rfl, rfl, rfl, rfl, rfl⟩

/-- C8: the mount-time health probe sets connectivity to true iff the
response parses as JSON whose `status` field strictly equals `healthy`;
on a transport/parse failure, a `null` body, or any other status value
(e.g. `down`) connectivity ends up false, since the mount state starts at
false and the non-healthy branch never writes it.  (The probe runs once:
the effect has an empty dependency list and is the only `apiHealth`
writer.) -/
theorem c8_health_probe (out : FetchOutcome) :
    (checkHealth initState out).apiHealth = true
      ↔ ∃ b, out = FetchOutcome.body b ∧ statusHealthy b = true := by
  cases out with
  | transportFail => simp [checkHealth]
  | body b =>
    by_cases hb : propAccessThrows b = true
    · have hsb : statusHealthy b = false := by
        cases b <;> simp_all [propAccessThrows, statusHealthy, getField]
      simp [checkHealth, hb, hsb]
    · simp only [Bool.not_eq_true] at hb
      by_cases hs : statusHealthy b = true
      · simp [checkHealth, hb, hs]
      · simp only [Bool.not_eq_true] at hs
        simp [checkHealth, hb, hs, initState]

/-- C3 counterexample: dropping a non-image file on the styled variant
does NOT set the error field (the claim says an error is set for
drag-drop too); it only emits a toast and clears the dragging flag, while
SelectedFile and PreviewHandle are indeed unchanged. -/
theorem c3_drop_sets_no_error_counterexample :
    jsStartsWith textFile.type "image/" = false
    ∧ (handleDrop c3state [textFile]).1.error = none
    ∧ (handleDrop c3state [textFile]).1.selectedFile = c3state.selectedFile
    ∧ (handleDrop c3state [textFile]).1.previewUrl = c3state.previewUrl
    ∧ (handleDrop c3state [textFile]).1.isDragging = false
    ∧ (handleDrop c3state [textFile]).2 = ["Please drop a valid image file"] :=
  ⟨rfl, rfl, rfl, rfl, rfl, rfl⟩

/-- C3 (amended): selecting a non-image file leaves SelectedFile and
PreviewHandle unchanged and issues no network call in both entry points;
the file-picker path (both variants) sets the error message and changes
nothing else, while the styled drag-drop path sets no error — it only
emits a toast and clears the dragging flag. -/
theorem c3_nonimage_rejected (s : AppState) (f : JsFile)
    (h : jsStartsWith f.type "image/" = false) :
    handleImageSelect s [f]
      = ({ s with error := some (Json.str "Please select a valid image file") },
         ["Invalid file type"])
    ∧ handleImageSelectApp s [f]
      = { s with error := some (Json.str "Please select a valid image file") }
    ∧ handleDrop s [f] = ({ s with isDragging := false }, ["Please drop a valid image file"]) := by
  simp [handleImageSelect, handleImageSelectApp, handleDrop, h]

/-- C3 witness: a text file offered to the picker and to the drop zone
from the initial state. -/
theorem c3_nonimage_rejected_witness :
    handleImageSelect initState [textFile]
      = ({ initState with error := some (Json.str "Please select a valid image file") },
         ["Invalid file type"])
    ∧ handleImageSelectApp initState [textFile]
      = { initState with error := some (Json.str "Please select a valid image file") }
    ∧ handleDrop initState [textFile]
      = ({ initState with isDragging := false }, ["Please drop a valid image file"]) :=
  c3_nonimage_rejected initState textFile (by decide)

/-- C2 counterexample: from a state holding an AnalysisResult from an
earlier successful analysis, a failed dispatch (here: transport failure)
leaves that AnalysisResult in place — it does not end with no
AnalysisResult present as the claim states. -/
theorem c2_stale_results_counterexample :
    dispatchFailed FetchOutcome.transportFail = true
    ∧ c2state.results = some c2oldResult
    ∧ (analyzeImage c2state Mode.action FetchOutcome.transportFail).state.results
        = some c2oldResult
    ∧ ((analyzeImage c2state Mode.action FetchOutcome.transportFail).state.results).isSome
        = true :=
  ⟨rfl, rfl, rfl, rfl⟩

/-- C2 (amended): a failed dispatch never writes AnalysisResult — it
leaves the field exactly as it was; in particular, starting from a state
with no AnalysisResult, a failed dispatch ends with none present (but a
previously stored result is NOT cleared). -/
theorem c2_failed_dispatch_keeps_results (s : AppState) (f : JsFile) (mode : Mode)
    (out : FetchOutcome) (h : s.selectedFile = some f)
    (hfail : dispatchFailed out = true) :
    (analyzeImage s mode out).state.results = s.results
    ∧ (analyzeImageApp s mode out).1.results = s.results
    ∧ (s.results = none →
        (analyzeImage s mode out).state.results = none
        ∧ (analyzeImageApp s mode out).1.results = none) := by
  have main : (analyzeImage s mode out).state.results = s.results
      ∧ (analyzeImageApp s mode out).1.results = s.results := by
    cases out with
    | transportFail => simp [analyzeImage, analyzeImageApp, h]
    | body b =>
      simp only [dispatchFailed, Bool.or_eq_true, Bool.not_eq_true'] at hfail
      rcases hfail with hb | hs
      · simp [analyzeImage, analyzeImageApp, h, hb]
      · by_cases hb : propAccessThrows b = true
        · simp [analyzeImage, analyzeImageApp, h, hb]
        · simp only [Bool.not_eq_true] at hb
          simp [analyzeImage, analyzeImageApp, h, hb, hs]
  exact ⟨main.1, main.2, fun hn => ⟨hn ▸ main.1, hn ▸ main.2⟩⟩

/-- C2 witness: a ready-to-analyze state with no stored result and a
server-failure body — after the failed dispatch no AnalysisResult is
present, in either variant. -/
theorem c2_failed_dispatch_keeps_results_witness :
    (analyzeImage fileState Mode.combined (FetchOutcome.body c1body)).state.results = none
    ∧ (analyzeImageApp fileState Mode.combined (FetchOutcome.body c1body)).1.results = none :=
  (c2_failed_dispatch_keeps_results fileState pngFile Mode.combined
      (FetchOutcome.body c1body) rfl rfl).2.2 rfl

/-- C1 counterexample: a server-failure body whose `error` field is
present but falsy (the empty string).  The claim reserves the generic
fallback for an absent field and says the body's `error` field is shown;
the code shows `Analysis failed` instead (the `||` falls back on any
falsy value). -/
theorem c1_error_fallback_counterexample :
    fileState.selectedFile = some pngFile
    ∧ getField "error" c1body = some (Json.str "")
    ∧ (analyzeImage fileState Mode.caption (FetchOutcome.body c1body)).state.error
        = some (Json.str "Analysis failed")
    ∧ Json.str "Analysis failed" ≠ Json.str "" := by
  refine ⟨rfl, rfl, rfl, fun h => ?_⟩
  injection h with h1
  exact absurd h1 (by decide)

/-- C1 (amended): for a dispatched analysis, a body with truthy `success`
is stored whole as AnalysisResult; otherwise the error shown is
`data.error || 'Analysis failed'` — the body's `error` field when that
field is present and truthy, the generic fallback when it is absent or
falsy; a transport-level failure (network error, non-JSON body) and a
JSON `null` body (whose `success` read throws into the same `catch`)
surface each variant's generic connection-error message, with no crash. -/
theorem c1_analyze_decision (s : AppState) (f : JsFile) (mode : Mode)
    (out : FetchOutcome) (h : s.selectedFile = some f) :
    (∀ b, out = FetchOutcome.body b → propAccessThrows b = false →
      (truthy (getField "success" b) = true →
        (analyzeImage s mode out).state.results = some b
        ∧ (analyzeImageApp s mode out).1.results = some b)
      ∧ (truthy (getField "success" b) = false →
        (analyzeImage s mode out).state.error
          = some (jsOr (getField "error" b) (Json.str "Analysis failed"))
        ∧ (analyzeImageApp s mode out).1.error
          = some (jsOr (getField "error" b) (Json.str "Analysis failed"))))
    ∧ (out = FetchOutcome.transportFail →
        (analyzeImage s mode out).state.error = some (Json.str "Failed to analyze image")
        ∧ (analyzeImageApp s mode out).1.error
          = some (Json.str "Failed to analyze image. Ensure Flask server is running."))
    ∧ (∀ b, out = FetchOutcome.body b → propAccessThrows b = true →
        (analyzeImage s mode out).state.error = some (Json.str "Failed to analyze image")
        ∧ (analyzeImageApp s mode out).1.error
          = some (Json.str "Failed to analyze image. Ensure Flask server is running.")) := by
  refine ⟨?_, ?_, ?_⟩
  · rintro b rfl hb
    constructor
    · intro hs; constructor <;> simp [analyzeImage, analyzeImageApp, h, hb, hs]
    · intro hs; constructor <;> simp [analyzeImage, analyzeImageApp, h, hb, hs]
  · rintro rfl
    constructor <;> simp [analyzeImage, analyzeImageApp, h]
  · rintro b rfl hb
    constructor <;> simp [analyzeImage, analyzeImageApp, h, hb]

/-- C1 witness: a successful body dispatched from a ready-to-analyze
state is stored whole as AnalysisResult in both variants. -/
theorem c1_analyze_decision_witness :
    (analyzeImage fileState Mode.caption (FetchOutcome.body okBody)).state.results
      = some okBody
    ∧ (analyzeImageApp fileState Mode.caption (FetchOutcome.body okBody)).1.results
      = some okBody :=
  ((c1_analyze_decision fileState pngFile Mode.caption (FetchOutcome.body okBody)
      rfl).1 okBody rfl rfl).1 rfl

/-- C6 counterexample: with nested `action.confidence = 87.345`, the
plain variant renders `87.34%`, not the claimed `87.35%`: `response.json()`
yields the IEEE-754 double `87.344999999999999886…`, which lies below the
two-decimal midpoint, so `toFixed(2)` rounds down.  The styled variant
does render the claimed `87.3%`. -/
theorem c6_confidence_counterexample :
    renderConfidencePlain c6body = some "87.34%"
    ∧ some "87.34%" ≠ some "87.35%"
    ∧ renderConfidenceStyled c6body = some "87.3%" :=
  ⟨rfl, by decide, rfl⟩

/-- C6 (amended): for a stored AnalysisResult with nested
`action.confidence = 87.345`, the styled variant renders the confidence
as `87.3%` (one-decimal `toFixed`) and the plain variant renders it as
`87.34%` (two-decimal `toFixed` of the double actually parsed from the
literal `87.345`). -/
theorem c6_confidence_rounding :
    renderConfidenceStyled c6body = some "87.3%"
    ∧ renderConfidencePlain c6body = some "87.34%" :=
  ⟨rfl, rfl⟩

/-- Supporting fact isolating the C6 divergence: two-decimal `toFixed` of
the exact rational `87.345 = 17469/200` (what the spec writer evidently
computed with) rounds the tie up to `87.35`; the code renders `87.34`
only because the double nearest `87.345` is strictly smaller. -/
theorem toFixed_exact_decimal_ties_up :
    toFixed 2 (Rat.mk' 17469 200 (by norm_num) (by norm_num)) = "87.35"
    ∧ conf87345 < Rat.mk' 17469 200 (by norm_num) (by norm_num) :=
  ⟨by decide, by decide⟩
